import Mathlib

/-!
Verification of the transmitter-check application (src/src/App.jsx and the
SignaturePad revisions in src/unnamed/part_001, part_002) against its
natural-language specification.

The embedding is shallow: each JavaScript function relevant to the claims is
translated into an executable Lean definition operating on explicit state.
Form values are strings; JS truthiness is made explicit where the source
relies on it.
-/

namespace TransmitterApp

/-- Transmitter record as held in the form and the in-memory list.  All form
fields are strings (src/src/App.jsx, transmitterSchema and initialFormData). -/
structure Transmitter where
  id : String
  name : String
  type : String
  location : String
  status : String
  range : String
  accuracy : String
  lastCalibration : String
  nextCalibrationDue : String
deriving DecidableEq, Repr

/-- Test for the regex /^[A-Z]{2}-\d{3}$/ from transmitterSchema (App.jsx line 32):
exactly two ASCII uppercase letters, a dash, and three ASCII digits. -/
def matchesIdFormat (s : String) : Bool :=
  match s.data with
  | [a, b, h, d1, d2, d3] =>
      a.isUpper && b.isUpper && h == '-' && d1.isDigit && d2.isDigit && d3.isDigit
  | _ => false

/-- Test for the regex /^\d{4}-\d{2}-\d{2}$/ from transmitterSchema
(App.jsx lines 39-40). -/
def matchesDateFormat (s : String) : Bool :=
  match s.data with
  | [y1, y2, y3, y4, h1, m1, m2, h2, d1, d2] =>
      y1.isDigit && y2.isDigit && y3.isDigit && y4.isDigit && h1 == '-' &&
      m1.isDigit && m2.isDigit && h2 == '-' && d1.isDigit && d2.isDigit
  | _ => false

/-- Allowed values of the `type` field: z.enum(['Pressure', 'Flow', 'Level',
'Temperature']) (App.jsx line 34). -/
def transmitterTypeValues : List String := ["Pressure", "Flow", "Level", "Temperature"]

/-- Allowed values of the `status` field: z.enum(['active', 'warning',
'critical']) (App.jsx line 36). -/
def transmitterStatusValues : List String := ["active", "warning", "critical"]

/-- Validation issues produced by transmitterSchema.parse, as (field, message)
pairs in schema order; Zod string/enum checks all run and collect every
issue (App.jsx lines 31-41). -/
def validateTransmitter (t : Transmitter) : List (String × String) :=
  (if t.id.length < 1 then [("id", "ID is required")] else [])
  ++ (if matchesIdFormat t.id then [] else [("id", "Format: XX-000")])
  ++ (if t.name.length < 5 then [("name", "Name must be at least 5 characters")] else [])
  ++ (if transmitterTypeValues.contains t.type then [] else [("type", "Invalid enum value")])
  ++ (if t.location.length < 5 then [("location", "Location is required")] else [])
  ++ (if transmitterStatusValues.contains t.status then [] else [("status", "Invalid enum value")])
  ++ (if t.range.length < 3 then [("range", "Range is required")] else [])
  ++ (if t.accuracy.length < 2 then [("accuracy", "Accuracy is required")] else [])
  ++ (if matchesDateFormat t.lastCalibration then [] else [("lastCalibration", "Invalid date")])
  ++ (if matchesDateFormat t.nextCalibrationDue then [] else [("nextCalibrationDue", "Invalid date")])

/-- Outcome of createTransmitter / updateTransmitter: `{ success: true }` or
`{ success: false, errors }`. -/
inductive CrudResult where
  | success : CrudResult
  | failure (errors : List (String × String)) : CrudResult
deriving DecidableEq, Repr

/-- createTransmitter (App.jsx lines 149-160): parse against the schema; on
success append the record to the list, on a validation error return the
per-field errors and leave the list as it was. -/
def createTransmitter (transmitters : List Transmitter) (data : Transmitter) :
    CrudResult × List Transmitter :=
  let errs := validateTransmitter data
  if errs.isEmpty then (CrudResult.success, transmitters ++ [data])
  else (CrudResult.failure errs, transmitters)

/-- updateTransmitter (App.jsx lines 162-173): parse against the schema; on
success replace every record whose id equals the given id, on a validation
error return the per-field errors and leave the list as it was. -/
def updateTransmitter (transmitters : List Transmitter) (id : String)
    (data : Transmitter) : CrudResult × List Transmitter :=
  let errs := validateTransmitter data
  if errs.isEmpty then
    (CrudResult.success, transmitters.map fun t => if t.id = id then data else t)
  else (CrudResult.failure errs, transmitters)

/-- deleteTransmitter (App.jsx lines 175-177): keep the records whose id
differs from the given id. -/
def deleteTransmitter (transmitters : List Transmitter) (id : String) :
    List Transmitter :=
  transmitters.filter fun t => t.id ≠ id

/-- Specification-side reading of the schema, exactly as the claim lists it:
id matches XX-000, name at least 5 characters, type among the four kinds,
location at least 5 characters, status among the three states, range at least
3 characters, accuracy at least 2 characters, both calibration dates shaped
YYYY-MM-DD. -/
def schemaValid (t : Transmitter) : Bool :=
  matchesIdFormat t.id && decide (5 ≤ t.name.length) &&
  transmitterTypeValues.contains t.type && decide (5 ≤ t.location.length) &&
  transmitterStatusValues.contains t.status && decide (3 ≤ t.range.length) &&
  decide (2 ≤ t.accuracy.length) && matchesDateFormat t.lastCalibration &&
  matchesDateFormat t.nextCalibrationDue

theorem matchesIdFormat_length {s : String} (h : matchesIdFormat s = true) :
    1 ≤ s.length := by
  unfold matchesIdFormat at h
  unfold String.length
  cases s with
  | mk data =>
    match data with
    | [a, b, c, d, e, f] => simp
    | [] => simp at h
    | [_] => simp at h
    | [_, _] => simp at h
    | [_, _, _] => simp at h
    | [_, _, _, _] => simp at h
    | [_, _, _, _, _] => simp at h
    | _ :: _ :: _ :: _ :: _ :: _ :: _ :: _ => simp at h

theorem if_cons_nil_eq_nil_iff {α : Type} {c : Prop} [Decidable c] {x : α} :
    (if c then [x] else []) = [] ↔ ¬ c := by
  split_ifs with h <;> simp [h]

theorem if_nil_cons_eq_nil_iff {α : Type} {c : Prop} [Decidable c] {x : α} :
    (if c then [] else [x]) = [] ↔ c := by
  split_ifs with h <;> simp [h]

/-- The validator has no issues exactly when the claim-side schema reading
holds (the min(1) check on id is subsumed by the XX-000 pattern). -/
theorem validateTransmitter_eq_nil_iff (t : Transmitter) :
    validateTransmitter t = [] ↔ schemaValid t = true := by
  simp only [validateTransmitter, schemaValid, List.append_eq_nil,
    if_cons_nil_eq_nil_iff, if_nil_cons_eq_nil_iff, not_lt,
    Bool.and_eq_true, decide_eq_true_eq]
  constructor
  · rintro ⟨⟨⟨⟨⟨⟨⟨⟨⟨h0, h1⟩, h2⟩, h3⟩, h4⟩, h5⟩, h6⟩, h7⟩, h8⟩, h9⟩
    exact ⟨⟨⟨⟨⟨⟨⟨⟨h1, h2⟩, h3⟩, h4⟩, h5⟩, h6⟩, h7⟩, h8⟩, h9⟩
  · rintro ⟨⟨⟨⟨⟨⟨⟨⟨h1, h2⟩, h3⟩, h4⟩, h5⟩, h6⟩, h7⟩, h8⟩, h9⟩
    exact ⟨⟨⟨⟨⟨⟨⟨⟨⟨matchesIdFormat_length h1, h1⟩, h2⟩, h3⟩, h4⟩, h5⟩,
      h6⟩, h7⟩, h8⟩, h9⟩

theorem list_isEmpty_iff_eq_nil {α : Type} {l : List α} :
    l.isEmpty = true ↔ l = [] := by
  cases l <;> simp

/-- Default transmitter PT-001 (App.jsx lines 65-76), used as a concrete
sample record. -/
def sampleTransmitter : Transmitter :=
  { id := "PT-001", name := "Pressure Transmitter 001", type := "Pressure",
    location := "Unit A - Reactor", status := "active", range := "0-100 bar",
    accuracy := "±0.1%", lastCalibration := "2024-01-15",
    nextCalibrationDue := "2025-01-15" }

/-- Empty form record (App.jsx initialFormData), which fails every schema
check except status. -/
def emptyFormTransmitter : Transmitter :=
  { id := "", name := "", type := "", location := "", status := "active",
    range := "", accuracy := "", lastCalibration := "", nextCalibrationDue := "" }

/-- C1: createTransmitter and updateTransmitter validate their input against
the transmitter schema and are atomic on error.  When the input satisfies the
schema (id matches XX-000, name and location at least 5 characters, type one
of the four kinds, status one of the three states, range at least 3 and
accuracy at least 2 characters, both calibration dates shaped YYYY-MM-DD) the
call succeeds and the record is appended, respectively replaces the record
with the given id; otherwise the call fails with the per-field errors and the
transmitter list is unchanged. -/
theorem create_update_validate_and_atomic
    (ts : List Transmitter) (uid : String) (data : Transmitter) :
    (schemaValid data = true →
      createTransmitter ts data = (CrudResult.success, ts ++ [data]) ∧
      updateTransmitter ts uid data =
        (CrudResult.success, ts.map fun t => if t.id = uid then data else t)) ∧
    (schemaValid data = false →
      validateTransmitter data ≠ [] ∧
      createTransmitter ts data =
        (CrudResult.failure (validateTransmitter data), ts) ∧
      updateTransmitter ts uid data =
        (CrudResult.failure (validateTransmitter data), ts)) := by
  constructor
  · intro h
    have hv : validateTransmitter data = [] :=
      (validateTransmitter_eq_nil_iff data).mpr h
    constructor <;> simp [createTransmitter, updateTransmitter, hv]
  · intro h
    have hv : validateTransmitter data ≠ [] := by
      intro hc
      rw [validateTransmitter_eq_nil_iff data] at hc
      rw [h] at hc
      exact Bool.false_ne_true hc
    have hv' : (validateTransmitter data).isEmpty ≠ true := by
      simpa [list_isEmpty_iff_eq_nil] using hv
    refine ⟨hv, ?_, ?_⟩ <;>
      simp only [createTransmitter, updateTransmitter, if_neg hv']

/-- Witness for C1 at concrete inputs: the sample PT-001 record passes the
schema and is appended; the empty form record fails and leaves the list
untouched. -/
theorem create_update_validate_and_atomic_witness :
    createTransmitter [] sampleTransmitter =
      (CrudResult.success, [sampleTransmitter]) ∧
    createTransmitter [sampleTransmitter] emptyFormTransmitter =
      (CrudResult.failure (validateTransmitter emptyFormTransmitter),
        [sampleTransmitter]) :=
  ⟨((create_update_validate_and_atomic [] "PT-001" sampleTransmitter).1
      (by decide)).1,
   ((create_update_validate_and_atomic [sampleTransmitter] "PT-001"
      emptyFormTransmitter).2 (by decide)).2.1⟩

/-- C10: createTransmitter does not enforce id uniqueness.  If the list
already holds a transmitter with id X and the input is a schema-valid record
whose id is X, the call succeeds and appends, so the list afterwards holds at
least two transmitters with id X, and deleteTransmitter X removes them all. -/
theorem createTransmitter_allows_duplicate_id
    (ts : List Transmitter) (data : Transmitter) (X : String)
    (hvalid : schemaValid data = true) (hid : data.id = X)
    (hmem : 1 ≤ ts.countP fun t => t.id == X) :
    createTransmitter ts data = (CrudResult.success, ts ++ [data]) ∧
    2 ≤ (ts ++ [data]).countP (fun t => t.id == X) ∧
    deleteTransmitter (ts ++ [data]) X = deleteTransmitter ts X ∧
    ∀ t ∈ deleteTransmitter (ts ++ [data]) X, t.id ≠ X := by
  have hv : validateTransmitter data = [] :=
    (validateTransmitter_eq_nil_iff data).mpr hvalid
  refine ⟨by simp [createTransmitter, hv], ?_, ?_, ?_⟩
  · rw [List.countP_append]
    have h1 : List.countP (fun t => t.id == X) [data] = 1 := by
      simp [List.countP, List.countP.go, hid]
    omega
  · simp [deleteTransmitter, List.filter_append, hid]
  · intro t ht
    have := List.of_mem_filter ht
    simpa using this

/-- Witness for C10: creating a second record with id PT-001 while PT-001 is
already present succeeds, yields two records with that id, and deleting
PT-001 removes both. -/
theorem createTransmitter_allows_duplicate_id_witness :
    createTransmitter [sampleTransmitter] sampleTransmitter =
      (CrudResult.success, [sampleTransmitter, sampleTransmitter]) ∧
    2 ≤ ([sampleTransmitter] ++ [sampleTransmitter]).countP
      (fun t => t.id == "PT-001") ∧
    deleteTransmitter ([sampleTransmitter] ++ [sampleTransmitter]) "PT-001" =
      deleteTransmitter [sampleTransmitter] "PT-001" ∧
    ∀ t ∈ deleteTransmitter ([sampleTransmitter] ++ [sampleTransmitter])
      "PT-001", t.id ≠ "PT-001" :=
  createTransmitter_allows_duplicate_id [sampleTransmitter] sampleTransmitter
    "PT-001" (by decide) (by decide) (by decide)

/-- Kind of a checklist item (the `type` field of the items in
checklistSteps, App.jsx lines 756-760). -/
inductive ItemType where
  | checkbox
  | file
  | textarea
  | signature
deriving DecidableEq, Repr

/-- One checklist item (id, label, type). -/
structure ChecklistItem where
  id : String
  label : String
  type : ItemType
deriving DecidableEq, Repr

/-- One wizard step (id, title, items). -/
structure ChecklistStep where
  id : String
  title : String
  items : List ChecklistItem
deriving DecidableEq, Repr

/-- checklistSteps (App.jsx lines 756-760; identical in
src/src/data/mockData.js lines 67-97): three steps of 4, 4 and 3 items. -/
def checklistSteps : List ChecklistStep :=
  [ { id := "visual", title := "Visual Inspection", items :=
      [ { id := "housing", label := "Housing condition (no cracks, corrosion)",
          type := ItemType.checkbox },
        { id := "connections", label := "Electrical connections secure",
          type := ItemType.checkbox },
        { id := "cables", label := "Cable condition good",
          type := ItemType.checkbox },
        { id := "mounting", label := "Mounting secure",
          type := ItemType.checkbox } ] },
    { id := "functional", title := "Functional Test", items :=
      [ { id := "display", label := "Display readable",
          type := ItemType.checkbox },
        { id := "response", label := "Response time acceptable",
          type := ItemType.checkbox },
        { id := "accuracy", label := "Reading accuracy within spec",
          type := ItemType.checkbox },
        { id := "alarms", label := "Alarm functions tested",
          type := ItemType.checkbox } ] },
    { id := "documentation", title := "Documentation", items :=
      [ { id := "photos", label := "Photos taken", type := ItemType.file },
        { id := "notes", label := "Additional notes",
          type := ItemType.textarea },
        { id := "signature", label := "Inspector signature",
          type := ItemType.signature } ] } ]

/-- Value stored in checklistData: a boolean from a checkbox handler or a
string from the textarea handler (App.jsx lines 768-774). -/
inductive FormValue where
  | bool (b : Bool)
  | str (s : String)
deriving DecidableEq, Repr

/-- JavaScript truthiness of a possibly-absent checklist value: undefined is
falsy, booleans are themselves, a string is truthy when non-empty. -/
def jsTruthy : Option FormValue → Bool
  | none => false
  | some (FormValue.bool b) => b
  | some (FormValue.str s) => s ≠ ""

/-- JavaScript String() conversion of a checklist value. -/
def FormValue.jsToString : FormValue → String
  | FormValue.bool true => "true"
  | FormValue.bool false => "false"
  | FormValue.str s => s

/-- JavaScript truthiness of a possibly-null string (the signature state
variable). -/
def jsTruthyStr : Option String → Bool
  | none => false
  | some s => s ≠ ""

/-- checklistData state: per step id, the per item id recorded values
(App.jsx line 764). -/
abbrev ChecklistData : Type := List (String × List (String × FormValue))

/-- Read data.checklist?.[stepId]?.[itemId] via the nested record. -/
def lookupItem (data : ChecklistData) (stepId itemId : String) :
    Option FormValue :=
  match List.lookup stepId data with
  | some items => List.lookup itemId items
  | none => none

/-- One uploaded photo (App.jsx lines 776-786). -/
structure Photo where
  id : String
  name : String
  url : String
deriving DecidableEq, Repr

/-- Inspection data object built by handleComplete (App.jsx line 798). -/
structure InspectionData where
  deviceId : String
  timestamp : String
  checklist : ChecklistData
  photos : List Photo
  signature : Option String
  inspector : String
deriving DecidableEq, Repr

/-- Transient state of the InspectionChecklist wizard (App.jsx lines
763-766). -/
structure WizardState where
  currentStep : Int
  checklistData : ChecklistData
  signature : Option String
  photos : List Photo
deriving DecidableEq, Repr

/-- handleComplete (App.jsx lines 793-800): when the signature is falsy the
handler alerts and returns without producing data or changing state;
otherwise it builds the inspection data object and hands it to onComplete.
The returned pair is (data passed to onComplete if any, wizard state after
the call). -/
def handleComplete (device : Transmitter) (now : String) (w : WizardState) :
    Option InspectionData × WizardState :=
  if jsTruthyStr w.signature then
    (some { deviceId := device.id, timestamp := now,
            checklist := w.checklistData, photos := w.photos,
            signature := w.signature, inspector := "Current User" }, w)
  else (none, w)

/-- C2: completing the wizard is gated on the signature.  handleComplete
never changes the wizard state; with a null signature it produces nothing
and does not invoke onComplete; with a captured (non-empty) signature it
invokes onComplete with exactly the inspection data object (deviceId,
timestamp, checklist, photos, signature, inspector); and it only ever
produces data when the signature is truthy. -/
theorem handleComplete_gated_on_signature
    (device : Transmitter) (now : String) (w : WizardState) :
    (handleComplete device now w).2 = w ∧
    (w.signature = none → (handleComplete device now w).1 = none) ∧
    (∀ s, w.signature = some s → s ≠ "" →
      (handleComplete device now w).1 =
        some { deviceId := device.id, timestamp := now,
               checklist := w.checklistData, photos := w.photos,
               signature := some s, inspector := "Current User" }) ∧
    (∀ d, (handleComplete device now w).1 = some d →
      jsTruthyStr w.signature = true) := by
  unfold handleComplete
  refine ⟨?_, ?_, ?_, ?_⟩
  · split <;> rfl
  · intro hsig
    rw [hsig]
    simp [jsTruthyStr]
  · intro s hsig hne
    rw [hsig]
    simp [jsTruthyStr, hne]
  · intro d hd
    by_contra hc
    rw [if_neg (by simpa using hc)] at hd
    exact Option.noConfusion hd

/-- Witness for C2: with no signature the wizard state is unchanged and
nothing is produced; with a captured data-URL signature the inspection data
is produced. -/
theorem handleComplete_gated_on_signature_witness :
    (handleComplete sampleTransmitter "2024-06-01T10:00:00.000Z"
      { currentStep := 2, checklistData := [], signature := none,
        photos := [] }).1 = none ∧
    (handleComplete sampleTransmitter "2024-06-01T10:00:00.000Z"
      { currentStep := 2, checklistData := [],
        signature := some "data:image/png;base64,AAAA", photos := [] }).1 =
      some { deviceId := "PT-001", timestamp := "2024-06-01T10:00:00.000Z",
             checklist := [], photos := [],
             signature := some "data:image/png;base64,AAAA",
             inspector := "Current User" } :=
  ⟨(handleComplete_gated_on_signature sampleTransmitter
      "2024-06-01T10:00:00.000Z" _).2.1 rfl,
   (handleComplete_gated_on_signature sampleTransmitter
      "2024-06-01T10:00:00.000Z" _).2.2.1 "data:image/png;base64,AAAA" rfl
      (by decide)⟩

/-- Completion test of one checklist item in the review screen
(getCompletionStatus, App.jsx lines 863-883): a checkbox counts when its
recorded value is truthy, a file item when at least one photo was uploaded,
a textarea when its value converted to a string and trimmed is truthy, the
signature item when the signature is truthy. -/
def itemCompleted (data : InspectionData) (stepId : String)
    (item : ChecklistItem) : Bool :=
  match item.type with
  | ItemType.checkbox => jsTruthy (lookupItem data.checklist stepId item.id)
  | ItemType.file => decide (0 < data.photos.length)
  | ItemType.textarea =>
      match lookupItem data.checklist stepId item.id with
      | some v => v.jsToString.trim ≠ ""
      | none => false
  | ItemType.signature => jsTruthyStr data.signature

/-- getCompletionStatus (App.jsx lines 863-880): total item count across all
steps, and the number of items counted as completed by the per-item rules,
accumulated over the nested forEach loops. -/
def getCompletionStatus (data : InspectionData) : Nat × Nat :=
  let totalItems := checklistSteps.foldl (fun acc step => acc + step.items.length) 0
  let completedItems := checklistSteps.foldl
    (fun acc step => acc + step.items.countP (itemCompleted data step.id)) 0
  (completedItems, totalItems)

/-- Completion percentage shown on the review screen (App.jsx line 883):
status.total ? Math.round((completed / total) * 100) : 0.  For non-negative
values Math.round(x) = floor(x + 1/2), so the percentage is
floor((200 * completed + total) / (2 * total)). -/
def completionPercentage (data : InspectionData) : Nat :=
  if (getCompletionStatus data).2 = 0 then 0
  else (200 * (getCompletionStatus data).1 + (getCompletionStatus data).2) /
    (2 * (getCompletionStatus data).2)

/-- C3: the review completion percentage is round(100 * completed / total)
with total = 11 items across all steps; an item is completed exactly when a
checkbox holds value true, the file item has at least one photo, the textarea
holds a non-blank string, and the signature item has a non-null signature;
for every inspection data, completed is at most total and the percentage lies
between 0 and 100. -/
theorem completionStatus_round_and_bounds (data : InspectionData) :
    (getCompletionStatus data).2 = 11 ∧
    (getCompletionStatus data).1 ≤ 11 ∧
    completionPercentage data =
      (200 * (getCompletionStatus data).1 + 11) / 22 ∧
    completionPercentage data ≤ 100 ∧
    (∀ b stepId iid lbl,
      lookupItem data.checklist stepId iid = some (FormValue.bool b) →
      itemCompleted data stepId
        { id := iid, label := lbl, type := ItemType.checkbox } = b) ∧
    (∀ s stepId iid lbl,
      lookupItem data.checklist stepId iid = some (FormValue.str s) →
      itemCompleted data stepId
        { id := iid, label := lbl, type := ItemType.textarea } =
        decide (s.trim ≠ "")) ∧
    (∀ stepId iid lbl,
      itemCompleted data stepId
        { id := iid, label := lbl, type := ItemType.file } =
        decide (0 < data.photos.length)) ∧
    (∀ stepId iid lbl,
      itemCompleted data stepId
        { id := iid, label := lbl, type := ItemType.signature } =
        jsTruthyStr data.signature) := by
  have htotal : (getCompletionStatus data).2 = 11 := by
    simp [getCompletionStatus, checklistSteps]
  have hcompleted : (getCompletionStatus data).1 ≤ 11 := by
    simp only [getCompletionStatus, checklistSteps, List.foldl]
    have h1 := List.countP_le_length (p := itemCompleted data "visual")
      (l := (checklistSteps.get ⟨0, by simp [checklistSteps]⟩).items)
    have h2 := List.countP_le_length (p := itemCompleted data "functional")
      (l := (checklistSteps.get ⟨1, by simp [checklistSteps]⟩).items)
    have h3 := List.countP_le_length (p := itemCompleted data "documentation")
      (l := (checklistSteps.get ⟨2, by simp [checklistSteps]⟩).items)
    simp [checklistSteps] at h1 h2 h3
    omega
  refine ⟨htotal, hcompleted, ?_, ?_, ?_, ?_, ?_, ?_⟩
  · unfold completionPercentage
    rw [show (getCompletionStatus data).2 = 11 from htotal]
    simp
  · unfold completionPercentage
    rw [show (getCompletionStatus data).2 = 11 from htotal]
    simp only [if_neg (by omega : ¬ (11 = 0))]
    omega
  · intro b stepId iid lbl h
    simp [itemCompleted, h, jsTruthy]
  · intro s stepId iid lbl h
    simp [itemCompleted, h, FormValue.jsToString]
  · intro stepId iid lbl
    rfl
  · intro stepId iid lbl
    rfl

/-- Concrete inspection with one completed checkbox, no photos and no
signature, as handed to the review screen. -/
def sampleInspection : InspectionData :=
  { deviceId := "PT-001", timestamp := "2024-06-01T10:00:00.000Z",
    checklist := [("visual", [("housing", FormValue.bool true)])],
    photos := [], signature := none, inspector := "Current User" }

/-- Concrete checkbox item used by witnesses. -/
def housingItem : ChecklistItem :=
  { id := "housing", label := "Housing condition (no cracks, corrosion)",
    type := ItemType.checkbox }

/-- Witness for C3 at a concrete inspection: the total is eleven and the
completed checkbox with recorded value true counts as completed. -/
theorem completionStatus_round_and_bounds_witness :
    (getCompletionStatus sampleInspection).2 = 11 ∧
    lookupItem sampleInspection.checklist "visual" "housing" =
      some (FormValue.bool true) ∧
    itemCompleted sampleInspection "visual" housingItem = true :=
  ⟨(completionStatus_round_and_bounds sampleInspection).1, by decide,
   (completionStatus_round_and_bounds sampleInspection).2.2.2.2.1 true
     "visual" "housing" "Housing condition (no cracks, corrosion)"
     (by decide)⟩

/-- Initial wizard step index: useState(0) (App.jsx line 763). -/
def initialStep : Int := 0

/-- nextStep (App.jsx line 790): setCurrentStep(s, Math.min(s + 1,
checklistSteps.length - 1)). -/
def nextStep (s : Int) : Int :=
  min (s + 1) ((checklistSteps.length : Int) - 1)

/-- prevStep (App.jsx line 791): setCurrentStep(s, Math.max(s - 1, 0)). -/
def prevStep (s : Int) : Int := max (s - 1) 0

/-- One wizard navigation action. -/
inductive StepOp where
  | next
  | prev
deriving DecidableEq, Repr

/-- Apply one navigation action to the step index. -/
def applyStepOp (s : Int) (op : StepOp) : Int :=
  match op with
  | StepOp.next => nextStep s
  | StepOp.prev => prevStep s

/-- Step index reached from the initial index by a sequence of navigation
actions. -/
def runSteps (ops : List StepOp) : Int := ops.foldl applyStepOp initialStep

/-- View of the top-level App component (App.jsx line 914). -/
inductive View where
  | dashboard
  | devices
  | deviceDetail
  | inspection
  | review
deriving DecidableEq, Repr

/-- State held by the App component together with the DataProvider list and
the transmitters key of localStorage (App.jsx lines 103-147 and 913-930). -/
structure AppState where
  currentView : View
  selectedDevice : Option Transmitter
  inspectionData : Option InspectionData
  showSuccessModal : Bool
  transmitters : List Transmitter
  localStorageTransmitters : Option (List Transmitter)
deriving DecidableEq, Repr

/-- handleInspectionComplete (App.jsx line 921): store the inspection data
and switch to the review view. -/
def handleInspectionComplete (s : AppState) (data : InspectionData) :
    AppState :=
  { s with inspectionData := some data, currentView := View.review }

/-- Immediate effect of handleSubmitInspection (App.jsx line 923): show the
success modal. -/
def handleSubmitInspectionNow (s : AppState) : AppState :=
  { s with showSuccessModal := true }

/-- Body of the 1200ms timeout inside handleSubmitInspection (App.jsx lines
924-929): return to the dashboard and clear the selected device, the
inspection data and the modal. -/
def handleSubmitInspectionLater (s : AppState) : AppState :=
  { s with currentView := View.dashboard, selectedDevice := none,
           inspectionData := none, showSuccessModal := false }

/-- Complete effect of handleSubmitInspection once its timeout has fired. -/
def handleSubmitInspection (s : AppState) : AppState :=
  handleSubmitInspectionLater (handleSubmitInspectionNow s)

theorem applyStepOp_bounds (s : Int) (op : StepOp)
    (h0 : 0 ≤ s) (h2 : s ≤ 2) :
    0 ≤ applyStepOp s op ∧ applyStepOp s op ≤ 2 := by
  have hlen : checklistSteps.length = 3 := rfl
  cases op <;> simp [applyStepOp, nextStep, prevStep, hlen] <;> omega

theorem foldl_applyStepOp_bounds (ops : List StepOp) :
    ∀ s : Int, 0 ≤ s → s ≤ 2 →
      0 ≤ ops.foldl applyStepOp s ∧ ops.foldl applyStepOp s ≤ 2 := by
  induction ops with
  | nil => intro s h0 h2; simpa using ⟨h0, h2⟩
  | cons op ops ih =>
    intro s h0 h2
    have hb := applyStepOp_bounds s op h0 h2
    simpa using ih (applyStepOp s op) hb.1 hb.2

/-- C9: starting from index 0, every sequence of nextStep and prevStep
actions keeps the current step index between 0 and the number of steps minus
one, so checklistSteps[currentStep] is always a defined step. -/
theorem step_index_invariant (ops : List StepOp) :
    0 ≤ runSteps ops ∧ runSteps ops < (checklistSteps.length : Int) ∧
    (checklistSteps.get? (runSteps ops).toNat).isSome = true := by
  have hb := foldl_applyStepOp_bounds ops 0 (by omega) (by omega)
  have hrun : runSteps ops = ops.foldl applyStepOp 0 := rfl
  have hlen : checklistSteps.length = 3 := rfl
  refine ⟨by omega, by rw [hlen]; omega, ?_⟩
  have hlt : (runSteps ops).toNat < checklistSteps.length := by
    rw [hlen]; omega
  rw [List.get?_eq_get hlt]
  rfl

/-- C4: the wizard visits visual inspection, functional test and
documentation in this fixed order: it starts at the visual-inspection step,
nextStep advances the index by exactly one and never past the last step,
prevStep decreases it by exactly one and never below the first,
the last step is titled Documentation and holds the photos, notes and
signature items, and completing it hands the app the inspection data and
shows the review summary view. -/
theorem wizard_step_order
    (s : Int) (app : AppState) (d : InspectionData) :
    (checklistSteps.map fun st => st.title) =
      ["Visual Inspection", "Functional Test", "Documentation"] ∧
    initialStep = 0 ∧
    ((checklistSteps.get? initialStep.toNat).map fun st => st.id) =
      some "visual" ∧
    (s < 2 → nextStep s = s + 1) ∧
    (2 ≤ s → nextStep s = 2) ∧
    (0 < s → prevStep s = s - 1) ∧
    (s ≤ 0 → prevStep s = 0) ∧
    ((checklistSteps.getLast?.map fun st => st.title) =
      some "Documentation") ∧
    ((checklistSteps.getLast?.map fun st => st.items.map fun i => i.type) =
      some [ItemType.file, ItemType.textarea, ItemType.signature]) ∧
    (handleInspectionComplete app d).currentView = View.review ∧
    (handleInspectionComplete app d).inspectionData = some d := by
  have hlen : checklistSteps.length = 3 := rfl
  refine ⟨by decide, rfl, by decide, ?_, ?_, ?_, ?_, by decide, by decide,
    rfl, rfl⟩
  all_goals intro h
  all_goals simp [nextStep, prevStep, hlen]
  all_goals omega

/-- Witness for C4: from the first step nextStep reaches the second, from
the last step nextStep stays, prevStep from the second returns to the first
and prevStep at the first stays. -/
theorem wizard_step_order_witness :
    nextStep 0 = 0 + 1 ∧ nextStep 2 = 2 ∧ prevStep 1 = 1 - 1 ∧
    prevStep 0 = 0 := by
  refine ⟨?_, ?_, ?_, ?_⟩
  · exact (wizard_step_order 0
      { currentView := View.inspection, selectedDevice := none,
        inspectionData := none, showSuccessModal := false,
        transmitters := [], localStorageTransmitters := none }
      sampleInspection).2.2.2.1 (by omega)
  · exact (wizard_step_order 2
      { currentView := View.inspection, selectedDevice := none,
        inspectionData := none, showSuccessModal := false,
        transmitters := [], localStorageTransmitters := none }
      sampleInspection).2.2.2.2.1 (by omega)
  · exact (wizard_step_order 1
      { currentView := View.inspection, selectedDevice := none,
        inspectionData := none, showSuccessModal := false,
        transmitters := [], localStorageTransmitters := none }
      sampleInspection).2.2.2.2.2.1 (by omega)
  · exact (wizard_step_order 0
      { currentView := View.inspection, selectedDevice := none,
        inspectionData := none, showSuccessModal := false,
        transmitters := [], localStorageTransmitters := none }
      sampleInspection).2.2.2.2.2.2.1 (by omega)

/-- Total number of form fields collected by the wizard: the items of all
checklist steps. -/
def wizardFieldCount : Nat :=
  (checklistSteps.map fun st => st.items.length).sum

/-- C7 counterexample: the wizard form does not consist of five fields; it
has eleven items across its three steps (4 + 4 + 3). -/
theorem wizard_not_five_fields :
    wizardFieldCount = 11 ∧ ¬ wizardFieldCount = 5 := by decide

/-- C7 amended: the checklist wizard is a linear wizard, but its form
consists of eleven fields in total (4 + 4 + 3 items over the three steps),
filled in the fixed step order visual, functional, documentation. -/
theorem wizard_linear_eleven_fields :
    wizardFieldCount = 11 ∧
    checklistSteps.length = 3 ∧
    (checklistSteps.map fun st => st.id) =
      ["visual", "functional", "documentation"] ∧
    (∀ s : Int, nextStep s = min (s + 1) 2 ∧ prevStep s = max (s - 1) 0) := by
  refine ⟨by decide, rfl, by decide, fun s => ⟨?_, rfl⟩⟩
  have hlen : checklistSteps.length = 3 := rfl
  simp [nextStep, hlen]

/-- One observable browser-level effect of a handler. -/
inductive BrowserEffect where
  | setReactState
  | startTimeout (ms : Nat)
  | networkRequest (url : String)
  | localStorageSetItem (key : String)
deriving DecidableEq, Repr

/-- Effects performed by ReviewSubmit.handleSubmit (App.jsx lines 856-861)
in order: mark submitting, wait 1200ms, invoke onSubmit, unmark
submitting.  There is no branch on the inspection content and no retry. -/
def handleSubmitTrace (data : InspectionData) : List (BrowserEffect × Bool) :=
  [(BrowserEffect.setReactState, false), (BrowserEffect.startTimeout 1200, false),
   (BrowserEffect.setReactState, true), (BrowserEffect.setReactState, false)]

/-- Marker telling whether a trace entry is the onSubmit invocation. -/
def isOnSubmitCall (e : BrowserEffect × Bool) : Bool := e.2

/-- C5: submission is retry-less and always succeeds: handleSubmit has no
failure branch; for every inspection data it produces the same straight-line
trace, in which onSubmit is invoked exactly once, after the fixed 1200ms
timeout. -/
theorem handleSubmit_invokes_onSubmit_once (d d' : InspectionData) :
    (handleSubmitTrace d).countP isOnSubmitCall = 1 ∧
    handleSubmitTrace d = handleSubmitTrace d' ∧
    handleSubmitTrace d =
      [(BrowserEffect.setReactState, false),
       (BrowserEffect.startTimeout 1200, false),
       (BrowserEffect.setReactState, true),
       (BrowserEffect.setReactState, false)] :=
  ⟨rfl, rfl, rfl⟩

/-- Effects performed by App.handleSubmitInspection (App.jsx lines 922-930):
five state updates and one timeout; no network request and no storage
write. -/
def handleSubmitInspectionTrace : List BrowserEffect :=
  [BrowserEffect.setReactState, BrowserEffect.startTimeout 1200,
   BrowserEffect.setReactState, BrowserEffect.setReactState,
   BrowserEffect.setReactState, BrowserEffect.setReactState]

/-- Effects performed by the DataProvider persistence effect (App.jsx lines
133-147): a 300ms debounce timer and one localStorage write under the
transmitters key. -/
def dataProviderPersistTrace : List BrowserEffect :=
  [BrowserEffect.startTimeout 300,
   BrowserEffect.localStorageSetItem "transmitters"]

/-- Marker telling whether an effect is a network or backend request. -/
def isNetworkEffect : BrowserEffect → Bool
  | BrowserEffect.networkRequest _ => true
  | _ => false

/-- Keys written to localStorage by a trace. -/
def storageKeysOf (trace : List BrowserEffect) : List String :=
  trace.filterMap fun e =>
    match e with
    | BrowserEffect.localStorageSetItem k => some k
    | _ => none

/-- Review-screen app state holding a submitted inspection, with the
transmitters list persisted. -/
def reviewState : AppState :=
  { currentView := View.review, selectedDevice := some sampleTransmitter,
    inspectionData := some sampleInspection, showSuccessModal := false,
    transmitters := [sampleTransmitter],
    localStorageTransmitters := some [sampleTransmitter] }

/-- C6 counterexample: submitting from the concrete review state leaves the
transmitters list and localStorage untouched but also clears the inspection
from memory, so the submitted inspection is retained nowhere: it is gone
from every component of the application state. -/
theorem handleSubmitInspection_discards_inspection :
    (handleSubmitInspection reviewState).inspectionData = none ∧
    (handleSubmitInspection reviewState).localStorageTransmitters =
      some [sampleTransmitter] ∧
    (handleSubmitInspection reviewState).transmitters = [sampleTransmitter] ∧
    handleSubmitInspection reviewState ≠ reviewState := by
  refine ⟨rfl, rfl, rfl, by decide⟩

/-- C6 amended: handleSubmitInspection leaves the transmitters list
unchanged and performs no network or backend call, but the submitted
inspection is not retained: after the success-modal timeout the inspection
data is cleared from memory, nothing about it is written to localStorage,
and the only data the provider ever persists to localStorage is the
transmitters array. -/
theorem handleSubmitInspection_frame (s : AppState) :
    (handleSubmitInspection s).transmitters = s.transmitters ∧
    (handleSubmitInspection s).localStorageTransmitters =
      s.localStorageTransmitters ∧
    (handleSubmitInspection s).inspectionData = none ∧
    (handleSubmitInspection s).currentView = View.dashboard ∧
    (handleSubmitInspectionTrace ++ dataProviderPersistTrace).countP
      isNetworkEffect = 0 ∧
    storageKeysOf (handleSubmitInspectionTrace ++ dataProviderPersistTrace) =
      ["transmitters"] :=
  ⟨rfl, rfl, rfl, rfl, by decide, by decide⟩

/-- Pointer event delivered to the SignaturePad canvas, with client
coordinates; touch events carry the coordinates of touches[0]. -/
inductive PadEvent where
  | mouseDown (x y : Int)
  | mouseMove (x y : Int)
  | mouseUp
  | mouseLeave
  | touchStart (x y : Int)
  | touchMove (x y : Int)
  | touchEnd
  | clearClick
deriving DecidableEq, Repr

/-- Canvas 2d-context command issued while drawing. -/
inductive CanvasCmd where
  | beginPath
  | moveTo (x y : Int)
  | lineTo (x y : Int)
  | stroke
  | clearRect
deriving DecidableEq, Repr

/-- Drawing state of a SignaturePad: the isDrawing flag and the commands
issued to the canvas so far. -/
structure PadState where
  isDrawing : Bool
  cmds : List CanvasCmd
deriving DecidableEq, Repr

/-- Pad state on mount: not drawing, blank canvas. -/
def initialPadState : PadState := { isDrawing := false, cmds := [] }

/-- Event step of the App.jsx SignaturePad (lines 348-439): getCoordinates
subtracts the bounding rectangle and reads touches[0] for touch events;
mouse down and touch start begin a path, mouse and touch moves extend and
stroke it while isDrawing, mouse up, mouse leave and touch end stop drawing,
Clear issues clearRect. -/
def padStepA (left top : Int) (s : PadState) (e : PadEvent) : PadState :=
  match e with
  | PadEvent.mouseDown x y =>
      { isDrawing := true, cmds := s.cmds ++
          [CanvasCmd.beginPath, CanvasCmd.moveTo (x - left) (y - top)] }
  | PadEvent.touchStart x y =>
      { isDrawing := true, cmds := s.cmds ++
          [CanvasCmd.beginPath, CanvasCmd.moveTo (x - left) (y - top)] }
  | PadEvent.mouseMove x y =>
      if s.isDrawing then
        { s with cmds := s.cmds ++
            [CanvasCmd.lineTo (x - left) (y - top), CanvasCmd.stroke] }
      else s
  | PadEvent.touchMove x y =>
      if s.isDrawing then
        { s with cmds := s.cmds ++
            [CanvasCmd.lineTo (x - left) (y - top), CanvasCmd.stroke] }
      else s
  | PadEvent.mouseUp => { s with isDrawing := false }
  | PadEvent.mouseLeave => { s with isDrawing := false }
  | PadEvent.touchEnd => { s with isDrawing := false }
  | PadEvent.clearClick => { s with cmds := s.cmds ++ [CanvasCmd.clearRect] }

/-- Event step of the src/unnamed/part_001 SignaturePad (lines 7-86): the
same handlers and the same getCoordinates touch handling as the App.jsx
revision. -/
def padStepB (left top : Int) (s : PadState) (e : PadEvent) : PadState :=
  match e with
  | PadEvent.mouseDown x y =>
      { isDrawing := true, cmds := s.cmds ++
          [CanvasCmd.beginPath, CanvasCmd.moveTo (x - left) (y - top)] }
  | PadEvent.touchStart x y =>
      { isDrawing := true, cmds := s.cmds ++
          [CanvasCmd.beginPath, CanvasCmd.moveTo (x - left) (y - top)] }
  | PadEvent.mouseMove x y =>
      if s.isDrawing then
        { s with cmds := s.cmds ++
            [CanvasCmd.lineTo (x - left) (y - top), CanvasCmd.stroke] }
      else s
  | PadEvent.touchMove x y =>
      if s.isDrawing then
        { s with cmds := s.cmds ++
            [CanvasCmd.lineTo (x - left) (y - top), CanvasCmd.stroke] }
      else s
  | PadEvent.mouseUp => { s with isDrawing := false }
  | PadEvent.mouseLeave => { s with isDrawing := false }
  | PadEvent.touchEnd => { s with isDrawing := false }
  | PadEvent.clearClick => { s with cmds := s.cmds ++ [CanvasCmd.clearRect] }

/-- Event step of the src/unnamed/part_002 SignaturePad (lines 6-70): its
canvas wires only onMouseDown, onMouseMove, onMouseUp and onMouseLeave, so
touch events reach no handler and leave the state unchanged; the mouse logic
matches the other revisions. -/
def padStepC (left top : Int) (s : PadState) (e : PadEvent) : PadState :=
  match e with
  | PadEvent.mouseDown x y =>
      { isDrawing := true, cmds := s.cmds ++
          [CanvasCmd.beginPath, CanvasCmd.moveTo (x - left) (y - top)] }
  | PadEvent.touchStart _ _ => s
  | PadEvent.mouseMove x y =>
      if s.isDrawing then
        { s with cmds := s.cmds ++
            [CanvasCmd.lineTo (x - left) (y - top), CanvasCmd.stroke] }
      else s
  | PadEvent.touchMove _ _ => s
  | PadEvent.mouseUp => { s with isDrawing := false }
  | PadEvent.mouseLeave => { s with isDrawing := false }
  | PadEvent.touchEnd => s
  | PadEvent.clearClick => { s with cmds := s.cmds ++ [CanvasCmd.clearRect] }

/-- Run the App.jsx revision over an event sequence from the mount state. -/
def padRunA (left top : Int) (evts : List PadEvent) : PadState :=
  evts.foldl (padStepA left top) initialPadState

/-- Run the part_001 revision over an event sequence from the mount state. -/
def padRunB (left top : Int) (evts : List PadEvent) : PadState :=
  evts.foldl (padStepB left top) initialPadState

/-- Run the part_002 revision over an event sequence from the mount state. -/
def padRunC (left top : Int) (evts : List PadEvent) : PadState :=
  evts.foldl (padStepC left top) initialPadState

/-- Test for touch events. -/
def PadEvent.isTouch : PadEvent → Bool
  | PadEvent.touchStart _ _ => true
  | PadEvent.touchMove _ _ => true
  | PadEvent.touchEnd => true
  | _ => false

/-- Bitmap exported by saveSignature: the canvas pixel dimensions and the
commands that drew into it.  The App.jsx revision sizes its canvas from the
bounding rectangle and device pixel ratio, part_001 uses the 300 by 150
attributes, part_002 uses 400 by 200. -/
structure BitmapExport where
  width : Nat
  height : Nat
  cmds : List CanvasCmd
deriving DecidableEq, Repr

/-- saveSignature of the App.jsx revision: toDataURL of the DPR-scaled
canvas. -/
def saveBitmapA (rectW rectH dpr : Nat) (s : PadState) : BitmapExport :=
  { width := rectW * dpr, height := rectH * dpr, cmds := s.cmds }

/-- saveSignature of the part_001 revision: toDataURL of its 300 by 150
canvas. -/
def saveBitmapB (s : PadState) : BitmapExport :=
  { width := 300, height := 150, cmds := s.cmds }

/-- saveSignature of the part_002 revision: toDataURL of its 400 by 200
canvas. -/
def saveBitmapC (s : PadState) : BitmapExport :=
  { width := 400, height := 200, cmds := s.cmds }

/-- C8 counterexample: the revisions do not accept the same input events and
do not export the same bitmap.  A concrete touch drawing leaves a stroke in
the App.jsx revision but nothing in the part_002 revision, and even on no
events at all the part_001 and part_002 bitmaps differ in size. -/
theorem signaturePad_revisions_differ :
    (padRunA 0 0 [PadEvent.touchStart 10 10, PadEvent.touchMove 20 20,
        PadEvent.touchEnd]).cmds ≠
      (padRunC 0 0 [PadEvent.touchStart 10 10, PadEvent.touchMove 20 20,
        PadEvent.touchEnd]).cmds ∧
    (padRunC 0 0 [PadEvent.touchStart 10 10, PadEvent.touchMove 20 20,
        PadEvent.touchEnd]).cmds = [] ∧
    saveBitmapB (padRunB 0 0 []) ≠ saveBitmapC (padRunC 0 0 []) := by
  decide

theorem padStepC_eq_padStepA_of_not_touch (left top : Int) (s : PadState)
    (e : PadEvent) (h : e.isTouch = false) :
    padStepC left top s e = padStepA left top s e := by
  cases e <;> first | rfl | simp [PadEvent.isTouch] at h

theorem foldl_padStepC_eq_filter (left top : Int) (evts : List PadEvent) :
    ∀ s : PadState,
      evts.foldl (padStepC left top) s =
        (evts.filter fun e => !e.isTouch).foldl (padStepA left top) s := by
  induction evts with
  | nil => intro s; rfl
  | cons e evts ih =>
    intro s
    by_cases he : e.isTouch = true
    · have hskip : padStepC left top s e = s := by
        cases e <;> first | rfl | simp [PadEvent.isTouch] at he
      simp [List.filter, he, List.foldl, hskip, ih]
    · have he' : e.isTouch = false := by
        cases h : e.isTouch
        · rfl
        · exact absurd h he
      simp [List.filter, he', List.foldl,
        padStepC_eq_padStepA_of_not_touch left top s e he', ih]

/-- C8 amended: the revisions share the drawing logic for mouse events and
the Clear action; the App.jsx and part_001 revisions react identically to
every event sequence, and the part_002 revision behaves exactly like the
App.jsx revision run on the sequence with all touch events removed, because
it handles no touch events at all; the exported bitmaps carry the same drawn
path commands where the behaviours agree, but the canvas dimensions differ
across revisions. -/
theorem signaturePad_mouse_logic_shared (left top : Int)
    (evts : List PadEvent) :
    padRunB left top evts = padRunA left top evts ∧
    padRunC left top evts =
      padRunA left top (evts.filter fun e => !e.isTouch) ∧
    (saveBitmapB (padRunB left top evts)).cmds =
      (saveBitmapA 300 150 1 (padRunA left top evts)).cmds := by
  have hstep : padStepB left top = padStepA left top := by
    funext s e
    cases e <;> rfl
  have hAB : padRunB left top evts = padRunA left top evts := by
    unfold padRunB padRunA
    rw [hstep]
  refine ⟨hAB, ?_, ?_⟩
  · unfold padRunC padRunA
    exact foldl_padStepC_eq_filter left top evts initialPadState
  · rw [hAB]
    rfl

end TransmitterApp
